import Mathlib

/-!
# Shallow embedding of the debt/payment allocation engine

This file embeds, in Lean 4, the ledger core of the shop-management
backend: `PaymentService.recordPayment`, `PaymentService.applyCreditToDebts`
and `PaymentService.getDebtPaymentHistory` (the enhanced payment service),
and `DebtService.addDebt` (the debt service), over the five-table data
model (`Customer`, `Debt`, `Payment`, `PaymentAllocation`,
`CreditTransaction`) of the Prisma schema.

Modelling conventions:
* JavaScript `Number` money amounts are modelled as `ℚ`.  All concrete
  inputs used below are small integers, on which IEEE double arithmetic
  is exact, so `ℚ` reflects the source arithmetic on those inputs.
* The database is a record of row lists plus per-table autoincrement
  counters.  `orderBy createdAt asc` is an insertion sort on the
  `createdAt` key; `findFirst`/`findUnique` are `List.find?`; `update`
  rewrites the rows whose primary key matches.
* Errors thrown by the services are the constructors of `ServiceError`
  (one per distinct `throw new Error(...)` message in the source).
* `DebtService.addDebt` omits the schema-required `originalAmount` from
  its `debt.create` call.  The operative Prisma schema declares
  `originalAmount Float` with no `@default` (its migration's generated
  warning records that the column was added without a default, and
  `salesService` supplies `originalAmount` explicitly in its own
  creates), so the Prisma client rejects this create with a validation
  error before issuing any SQL: `addDebt` performs no write on any path.
* `prisma.$transaction` makes a write sequence all-or-nothing; a bare
  sequence of `prisma.*` calls is not.  `TxWrap`/`abortState` model the
  state that persists when an operation is aborted after its first `k`
  write statements.
-/

namespace Shop

/-- Prisma enum `PaymentMethod`. -/
inductive PaymentMethod
  | CASH
  | MPESA
  | BANK_TRANSFER
  | OTHER
deriving DecidableEq, Repr

/-- Prisma enum `CreditTransactionType`. -/
inductive CreditTransactionType
  | OVERPAYMENT_ADDED
  | APPLIED_TO_DEBT
  | MANUAL_ADJUSTMENT
deriving DecidableEq, Repr

/-- Errors thrown by the services: one constructor per distinct
`throw new Error(...)` message in the source, plus
`missingOriginalAmount` for the Prisma client's validation error on
`DebtService.addDebt`'s `debt.create`, whose data omits the
schema-required `originalAmount` field. -/
inductive ServiceError
  | customerNotFound
  | noCreditBalance
  | noUnpaidDebts
  | debtNotFound
  | missingOriginalAmount
deriving DecidableEq, Repr

/-- A `Customer` row (the fields the ledger core reads or writes). -/
structure Customer where
  id : Nat
  userId : Nat
  creditBalance : ℚ
deriving DecidableEq, Repr

/-- A `Debt` row. -/
structure Debt where
  id : Nat
  customerId : Nat
  userId : Nat
  amount : ℚ
  originalAmount : ℚ
  isPaid : Bool
  createdAt : Nat
deriving DecidableEq, Repr

/-- A `Payment` row. -/
structure Payment where
  id : Nat
  customerId : Nat
  userId : Nat
  amount : ℚ
  appliedToDebt : ℚ
  creditAmount : ℚ
  paymentMethod : PaymentMethod
deriving DecidableEq, Repr

/-- A `PaymentAllocation` row. -/
structure PaymentAllocation where
  id : Nat
  paymentId : Nat
  debtId : Nat
  amount : ℚ
deriving DecidableEq, Repr

/-- A `CreditTransaction` row. -/
structure CreditTransaction where
  id : Nat
  customerId : Nat
  userId : Nat
  amount : ℚ
  type : CreditTransactionType
  relatedDebtId : Option Nat
  relatedPaymentId : Option Nat
deriving DecidableEq, Repr

/-- The relational store: the five tables plus autoincrement counters and
a monotone clock supplying `createdAt` values for new debts. -/
structure DB where
  customers : List Customer
  debts : List Debt
  payments : List Payment
  allocations : List PaymentAllocation
  creditTransactions : List CreditTransaction
  nextDebtId : Nat
  nextPaymentId : Nat
  nextAllocationId : Nat
  nextCreditTransactionId : Nat
  nextCreatedAt : Nat
deriving DecidableEq, Repr

/-- `tx.customer.findFirst({ where: { id: customerId, userId } })`. -/
def findCustomer (db : DB) (customerId userId : Nat) : Option Customer :=
  db.customers.find? (fun c => c.id == customerId && c.userId == userId)

/-- Insert a debt into a list sorted by `createdAt`. -/
def insertByCreatedAt (d : Debt) : List Debt → List Debt
  | [] => [d]
  | e :: es =>
    if d.createdAt ≤ e.createdAt then d :: e :: es else e :: insertByCreatedAt d es

/-- `orderBy: { createdAt: 'asc' }`. -/
def sortByCreatedAt : List Debt → List Debt
  | [] => []
  | d :: ds => insertByCreatedAt d (sortByCreatedAt ds)

/-- `tx.debt.findMany({ where: { customerId, isPaid: false }, orderBy: { createdAt: 'asc' } })` —
the FIFO debt queue. -/
def unpaidDebtsFifo (db : DB) (customerId : Nat) : List Debt :=
  sortByCreatedAt (db.debts.filter (fun d => d.customerId == customerId && !d.isPaid))

/-- `debts.reduce((sum, debt) => sum + debt.amount, 0)`. -/
def sumAmounts (debts : List Debt) : ℚ :=
  debts.foldl (fun s d => s + d.amount) 0

/-- Total of the customer's unpaid debt amounts. -/
def totalUnpaidDebt (db : DB) (customerId : Nat) : ℚ :=
  sumAmounts (unpaidDebtsFifo db customerId)

/-- `tx.debt.update({ where: { id: debtId }, data: ... })`. -/
def updateDebtRow (debts : List Debt) (debtId : Nat) (f : Debt → Debt) : List Debt :=
  debts.map (fun d => if d.id == debtId then f d else d)

/-- `tx.customer.update({ where: { id: customerId }, data: ... })`. -/
def updateCustomerRow (customers : List Customer) (customerId : Nat)
    (f : Customer → Customer) : List Customer :=
  customers.map (fun c => if c.id == customerId then f c else c)

/-- `tx.creditTransaction.create({ data: ... })`. -/
def createCreditTransaction (db : DB) (customerId userId : Nat) (amount : ℚ)
    (type : CreditTransactionType) (relatedDebtId relatedPaymentId : Option Nat) : DB :=
  { db with
    creditTransactions := db.creditTransactions ++
      [{ id := db.nextCreditTransactionId, customerId := customerId, userId := userId,
         amount := amount, type := type, relatedDebtId := relatedDebtId,
         relatedPaymentId := relatedPaymentId }],
    nextCreditTransactionId := db.nextCreditTransactionId + 1 }

/-- Arguments of `PaymentService.recordPayment` (strings omitted). -/
structure RecordPaymentData where
  customerId : Nat
  amount : ℚ
  paymentMethod : Option PaymentMethod
  userId : Nat

/-- The FIFO allocation loop of `recordPayment`
(`for (const debt of unpaidDebts) { if (remainingPaymentForDebt <= 0) break; ... }`):
for each debt, create a `PaymentAllocation` of
`min(remainingPaymentForDebt, debt.amount)`, then either mark the debt
paid (when the allocation covers `debt.amount`) or reduce its `amount`.
Returns the mutated store, the final `remainingPaymentForDebt`, and the
allocations pushed onto `paymentAllocations`. -/
def recordPaymentLoop (paymentId : Nat) :
    List Debt → ℚ → DB → DB × ℚ × List PaymentAllocation
  | [], remaining, db => (db, remaining, [])
  | debt :: rest, remaining, db =>
    if remaining ≤ 0 then (db, remaining, [])
    else
      let amountToAllocate := min remaining debt.amount
      let allocation : PaymentAllocation :=
        { id := db.nextAllocationId, paymentId := paymentId,
          debtId := debt.id, amount := amountToAllocate }
      let db' : DB :=
        { db with allocations := db.allocations ++ [allocation],
                  nextAllocationId := db.nextAllocationId + 1 }
      if debt.amount ≤ amountToAllocate then
        let debtsFull := updateDebtRow db'.debts debt.id (fun d => { d with isPaid := true })
        let db'' : DB := { db' with debts := debtsFull }
        let r := recordPaymentLoop paymentId rest (remaining - debt.amount) db''
        (r.1, r.2.1, allocation :: r.2.2)
      else
        let debtsPart := updateDebtRow db'.debts debt.id
          (fun d => { d with amount := debt.amount - amountToAllocate })
        let db'' : DB := { db' with debts := debtsPart }
        let r := recordPaymentLoop paymentId rest 0 db''
        (r.1, r.2.1, allocation :: r.2.2)

/-- `PaymentService.recordPayment` (enhanced payment service): runs inside
`prisma.$transaction`; fetches the customer and the FIFO queue, computes
`effectivePayment = amount + creditBalance`,
`appliedToDebt = min(effectivePayment, totalDebt)`,
`newCreditAmount = max(0, effectivePayment - totalDebt)`, creates the
`Payment` row, runs the FIFO loop, replaces the customer's
`creditBalance` with `newCreditAmount`, and writes the
`APPLIED_TO_DEBT` / `OVERPAYMENT_ADDED` credit transactions under the
source's conditions.  Returns the final store, the created payment row
and the allocation list (the derived summary object is not modelled). -/
def recordPayment (db : DB) (data : RecordPaymentData) :
    Except ServiceError (DB × Payment × List PaymentAllocation) :=
  match findCustomer db data.customerId data.userId with
  | none => .error .customerNotFound
  | some customer =>
    let unpaidDebts := unpaidDebtsFifo db data.customerId
    let totalDebt := sumAmounts unpaidDebts
    let availableCredit := customer.creditBalance
    let effectivePayment := data.amount + availableCredit
    let appliedToDebt := min effectivePayment totalDebt
    let newCreditAmount := max 0 (effectivePayment - totalDebt)
    let payment : Payment :=
      { id := db.nextPaymentId, customerId := data.customerId, userId := data.userId,
        amount := data.amount,
        appliedToDebt := appliedToDebt - availableCredit,
        creditAmount := newCreditAmount - availableCredit,
        paymentMethod := data.paymentMethod.getD .CASH }
    let db1 : DB :=
      { db with payments := db.payments ++ [payment],
                nextPaymentId := db.nextPaymentId + 1 }
    let r := recordPaymentLoop payment.id unpaidDebts appliedToDebt db1
    let db2 := r.1
    let paymentAllocations := r.2.2
    let customers' := updateCustomerRow db2.customers data.customerId
      (fun c => { c with creditBalance := newCreditAmount })
    let db3 : DB := { db2 with customers := customers' }
    let db4 :=
      if 0 < availableCredit ∧ data.amount < appliedToDebt then
        createCreditTransaction db3 data.customerId data.userId
          (-(min availableCredit totalDebt)) .APPLIED_TO_DEBT none (some payment.id)
      else db3
    let db5 :=
      if availableCredit < newCreditAmount then
        createCreditTransaction db4 data.customerId data.userId
          (newCreditAmount - availableCredit) .OVERPAYMENT_ADDED none (some payment.id)
      else db4
    .ok (db5, payment, paymentAllocations)

/-- Summary returned by `applyCreditToDebts`. -/
structure CreditApplicationSummary where
  creditApplied : ℚ
  previousCreditBalance : ℚ
  newCreditBalance : ℚ
deriving DecidableEq, Repr

/-- The FIFO loop of `applyCreditToDebts`
(`for (const debt of unpaidDebts) { if (remainingCredit <= 0) break; ... }`):
identical shape to the `recordPayment` loop, with the full-cover test
written `remainingCredit >= debt.amount` and the partial reduction
written `debt.amount - remainingCredit` in the source. -/
def applyCreditLoop (paymentId : Nat) :
    List Debt → ℚ → DB → DB × ℚ × List PaymentAllocation
  | [], remainingCredit, db => (db, remainingCredit, [])
  | debt :: rest, remainingCredit, db =>
    if remainingCredit ≤ 0 then (db, remainingCredit, [])
    else
      let amountToAllocate := min remainingCredit debt.amount
      let allocation : PaymentAllocation :=
        { id := db.nextAllocationId, paymentId := paymentId,
          debtId := debt.id, amount := amountToAllocate }
      let db' : DB :=
        { db with allocations := db.allocations ++ [allocation],
                  nextAllocationId := db.nextAllocationId + 1 }
      if debt.amount ≤ remainingCredit then
        let debtsFull := updateDebtRow db'.debts debt.id (fun d => { d with isPaid := true })
        let db'' : DB := { db' with debts := debtsFull }
        let r := applyCreditLoop paymentId rest (remainingCredit - debt.amount) db''
        (r.1, r.2.1, allocation :: r.2.2)
      else
        let debtsPart := updateDebtRow db'.debts debt.id
          (fun d => { d with amount := debt.amount - remainingCredit })
        let db'' : DB := { db' with debts := debtsPart }
        let r := applyCreditLoop paymentId rest 0 db''
        (r.1, r.2.1, allocation :: r.2.2)

/-- `PaymentService.applyCreditToDebts(customerId, userId, creditAmount = null)`:
runs inside `prisma.$transaction`; throws when the customer is missing,
when `creditBalance <= 0`, or when there are no unpaid debts; then
applies `creditToApply` to the FIFO queue.  The source selects
`creditToApply` with a JavaScript truthiness test
(`creditAmount ? Math.min(creditAmount, creditBalance, totalDebt)
              : Math.min(creditBalance, totalDebt)`),
so a `null` *and* a `0` argument both take the second branch. -/
def applyCreditToDebts (db : DB) (customerId userId : Nat) (creditAmount : Option ℚ) :
    Except ServiceError (DB × Payment × List PaymentAllocation × CreditApplicationSummary) :=
  match findCustomer db customerId userId with
  | none => .error .customerNotFound
  | some customer =>
    if customer.creditBalance ≤ 0 then .error .noCreditBalance
    else
      let unpaidDebts := unpaidDebtsFifo db customerId
      if unpaidDebts.length == 0 then .error .noUnpaidDebts
      else
        let totalDebt := sumAmounts unpaidDebts
        let creditToApply :=
          match creditAmount with
          | some v => if v == 0 then min customer.creditBalance totalDebt
                      else min v (min customer.creditBalance totalDebt)
          | none => min customer.creditBalance totalDebt
        let payment : Payment :=
          { id := db.nextPaymentId, customerId := customerId, userId := userId,
            amount := 0,
            appliedToDebt := creditToApply,
            creditAmount := -creditToApply,
            paymentMethod := .OTHER }
        let db1 : DB :=
          { db with payments := db.payments ++ [payment],
                    nextPaymentId := db.nextPaymentId + 1 }
        let r := applyCreditLoop payment.id unpaidDebts creditToApply db1
        let db2 := r.1
        let paymentAllocations := r.2.2
        let newCreditBalance := customer.creditBalance - creditToApply
        let customers' := updateCustomerRow db2.customers customerId
          (fun c => { c with creditBalance := newCreditBalance })
        let db3 : DB := { db2 with customers := customers' }
        let db4 := createCreditTransaction db3 customerId userId (-creditToApply)
          .APPLIED_TO_DEBT none (some payment.id)
        .ok (db4, payment, paymentAllocations,
             { creditApplied := creditToApply,
               previousCreditBalance := customer.creditBalance,
               newCreditBalance := newCreditBalance })

/-- Arguments of `DebtService.addDebt` (strings omitted). -/
structure AddDebtData where
  customerId : Nat
  amount : ℚ
  userId : Nat

/-- Return value of `DebtService.addDebt`. -/
structure AddDebtResult where
  debt : Debt
  creditApplied : ℚ
  finalAmount : ℚ
deriving DecidableEq, Repr

/-- `DebtService.addDebt`, written as its sequence of bare `prisma.*`
statements (the service does NOT open `prisma.$transaction`).  After the
customer lookup, its first statement is
`prisma.debt.create({ data: { customerId, userId, amount, description, dueDate } })`,
which omits `originalAmount`.  The operative Prisma schema declares
`originalAmount Float` as required with no `@default` (the migration's
generated warning records that the column was added without a default,
and `salesService` supplies `originalAmount` explicitly in both of its
own `debt.create` calls), and the Prisma client validates create
arguments against the schema before issuing any SQL.  The create is
therefore rejected with a validation error on every invocation that
finds the customer, so `addDebt` performs no write on any path: the
auto-credit code after the create (debt.update, customer.update,
creditTransaction.create, SMS) is unreachable, and the list of
after-write states promised by the return type is never produced. -/
def addDebtStates (db : DB) (data : AddDebtData) :
    Except ServiceError (List DB × AddDebtResult) :=
  match findCustomer db data.customerId data.userId with
  | none => .error .customerNotFound
  | some _ => .error .missingOriginalAmount

/-- `DebtService.addDebt`: the state after all of its writes (with the
rejected `debt.create`, every invocation propagates an error instead). -/
def addDebt (db : DB) (data : AddDebtData) : Except ServiceError (DB × AddDebtResult) :=
  match addDebtStates db data with
  | .error e => .error e
  | .ok (states, res) => .ok (states.getLastD db, res)

/-- Whether an operation's writes run inside `prisma.$transaction`. -/
inductive TxWrap
  | wrapped
  | unwrapped
deriving DecidableEq, Repr

/-- `recordPayment` wraps all its writes in `prisma.$transaction`. -/
def recordPaymentTx : TxWrap := .wrapped

/-- `applyCreditToDebts` wraps all its writes in `prisma.$transaction`. -/
def applyCreditToDebtsTx : TxWrap := .wrapped

/-- `addDebt` issues bare `prisma.*` calls with no transaction. -/
def addDebtTx : TxWrap := .unwrapped

/-- The store state that persists when an operation is aborted (a later
statement throws) after its first `k` writes: a transaction-wrapped
operation rolls back to the initial state; an unwrapped one keeps the
first `k` writes. -/
def abortState (tx : TxWrap) (init : DB) (states : List DB) (k : Nat) : DB :=
  match tx with
  | .wrapped => init
  | .unwrapped => (states.take k).getLastD init

/-- `abortState` for `addDebt` at a concrete call: the state left behind
if `addDebt` is interrupted after its first `k` write statements. -/
def addDebtAbortState (db : DB) (data : AddDebtData) (k : Nat) : DB :=
  match addDebtStates db data with
  | .error _ => db
  | .ok (states, _) => abortState addDebtTx db states k

/-- `DebtService.markDebtAsPaid(debtId, userId)`: a bare
`prisma.debt.update({ where: { id: debtId, userId }, data: { isPaid: true, updatedAt } })`
— it sets only the `isPaid` flag (no `amount` change and no
`PaymentAllocation` row), and `update` throws when no matching row
exists. -/
def markDebtAsPaid (db : DB) (debtId userId : Nat) : Except ServiceError DB :=
  match db.debts.find? (fun d => d.id == debtId && d.userId == userId) with
  | none => .error .debtNotFound
  | some _ =>
    let debts' := db.debts.map
      (fun d => if d.id == debtId && d.userId == userId then { d with isPaid := true } else d)
    .ok { db with debts := debts' }

/-- `prisma.debt.findFirst({ where: { id: debtId, userId } })`. -/
def findDebtByIdUser (db : DB) (debtId userId : Nat) : Option Debt :=
  db.debts.find? (fun d => d.id == debtId && d.userId == userId)

/-- The allocations referencing a given debt
(`debt.paymentAllocations` in the include). -/
def debtAllocations (db : DB) (debtId : Nat) : List PaymentAllocation :=
  db.allocations.filter (fun a => a.debtId == debtId)

/-- `allocations.reduce((sum, a) => sum + a.amount, 0)`. -/
def sumAllocationAmounts (allocs : List PaymentAllocation) : ℚ :=
  allocs.foldl (fun s a => s + a.amount) 0

/-- JavaScript `Math.round`: round half toward positive infinity. -/
def jsRound (q : ℚ) : ℤ := ⌊q + 1 / 2⌋

/-- The `paymentSummary` object returned by `getDebtPaymentHistory`. -/
structure PaymentSummary where
  originalAmount : ℚ
  totalPaid : ℚ
  remainingAmount : ℚ
  percentagePaid : ℚ
  isFullyPaid : Bool
  numberOfPayments : Nat
deriving DecidableEq, Repr

/-- `PaymentService.getDebtPaymentHistory(debtId, userId)` (read side):
`totalPaid` sums the debt's allocations;
`percentagePaid = originalAmount > 0 ? totalPaid / originalAmount * 100 : 0`,
then `Math.round(percentagePaid * 100) / 100`; `isFullyPaid` is the
stored `isPaid` flag. -/
def getDebtPaymentHistory (db : DB) (debtId userId : Nat) :
    Except ServiceError PaymentSummary :=
  match findDebtByIdUser db debtId userId with
  | none => .error .debtNotFound
  | some debt =>
    let allocs := debtAllocations db debtId
    let totalPaid := sumAllocationAmounts allocs
    let percentagePaid :=
      if 0 < debt.originalAmount then totalPaid / debt.originalAmount * 100 else 0
    .ok { originalAmount := debt.originalAmount,
          totalPaid := totalPaid,
          remainingAmount := debt.amount,
          percentagePaid := (jsRound (percentagePaid * 100) : ℚ) / 100,
          isFullyPaid := debt.isPaid,
          numberOfPayments := allocs.length }

/-- Sum of a customer's `CreditTransaction` amounts (the audit ledger). -/
def creditTransactionSum (db : DB) (customerId : Nat) : ℚ :=
  ((db.creditTransactions.filter (fun t => t.customerId == customerId)).map
    (fun t => t.amount)).sum

/-- The `Debt` row with a given id. -/
def findDebtRow (db : DB) (debtId : Nat) : Option Debt :=
  db.debts.find? (fun d => d.id == debtId)

/-- The credit actually applied by `applyCreditToDebts` for a given
override argument: the override is honoured only when it is non-null and
nonzero (JavaScript truthiness), otherwise `min(creditBalance, totalDebt)`
is used. -/
def creditToApplySpec (ov : Option ℚ) (creditBalance totalDebt : ℚ) : ℚ :=
  match ov with
  | some v => if v == 0 then min creditBalance totalDebt
              else min v (min creditBalance totalDebt)
  | none => min creditBalance totalDebt

/-- Postcondition of the FIFO scenario: paying 100 against the unpaid
queue `[d1, d2, d3]` (amounts 50, 60, 40) fully pays `d1`, reduces `d2`
to 10, leaves `d3` (and every other debt) untouched, and creates exactly
the two allocation rows `(d1, 50)` and `(d2, 50)`. -/
def FifoPost (db : DB) (cid uid : Nat) (pm : Option PaymentMethod) (d1 d2 d3 : Debt) : Prop :=
  ∃ db' p allocs,
    recordPayment db { customerId := cid, amount := 100, paymentMethod := pm, userId := uid }
        = .ok (db', p, allocs) ∧
    allocs.map (fun a => (a.debtId, a.amount)) = [(d1.id, 50), (d2.id, 50)] ∧
    db'.allocations = db.allocations ++ allocs ∧
    findDebtRow db' d1.id = (findDebtRow db d1.id).map (fun d => { d with isPaid := true }) ∧
    findDebtRow db' d2.id = (findDebtRow db d2.id).map (fun d => { d with amount := 10 }) ∧
    findDebtRow db' d3.id = findDebtRow db d3.id

/-- Postcondition on the persisted `Payment.appliedToDebt` field of
`recordPayment`: it equals `min(amount + credit, totalDebt) - credit`,
that is, `(availableFunds - remaining) - priorCreditBalance`, not
`availableFunds - remaining` itself. -/
def AppliedToDebtPost (db : DB) (data : RecordPaymentData) (c : Customer) : Prop :=
  ∃ db' p allocs, recordPayment db data = .ok (db', p, allocs) ∧
    p.appliedToDebt =
      min (data.amount + c.creditBalance) (totalUnpaidDebt db data.customerId)
        - c.creditBalance ∧
    min (data.amount + c.creditBalance) (totalUnpaidDebt db data.customerId)
      = data.amount + c.creditBalance
        - max 0 (data.amount + c.creditBalance - totalUnpaidDebt db data.customerId)

/-- Full case analysis of `applyCreditToDebts` once the customer is
found: `NoCredit` exactly when `creditBalance ≤ 0` (checked first);
otherwise `NoDebt` exactly when the unpaid queue is empty; otherwise it
succeeds and applies `creditToApplySpec` of the override, writing the
audit `Payment` row (`amount = 0`) and one `APPLIED_TO_DEBT` credit
transaction of `-creditToApply`. -/
def ApplyCreditContract (db : DB) (cid uid : Nat) (ov : Option ℚ) (c : Customer) : Prop :=
  (c.creditBalance ≤ 0 → applyCreditToDebts db cid uid ov = .error .noCreditBalance) ∧
  (0 < c.creditBalance → unpaidDebtsFifo db cid = [] →
      applyCreditToDebts db cid uid ov = .error .noUnpaidDebts) ∧
  (0 < c.creditBalance → unpaidDebtsFifo db cid ≠ [] →
      ∃ db' p allocs s, applyCreditToDebts db cid uid ov = .ok (db', p, allocs, s) ∧
        s.creditApplied = creditToApplySpec ov c.creditBalance (totalUnpaidDebt db cid) ∧
        p.amount = 0 ∧
        p.appliedToDebt = s.creditApplied ∧
        p.creditAmount = -s.creditApplied ∧
        s.newCreditBalance = c.creditBalance - s.creditApplied ∧
        db'.creditTransactions = db.creditTransactions ++
          [{ id := db.nextCreditTransactionId, customerId := cid, userId := uid,
             amount := -s.creditApplied, type := .APPLIED_TO_DEBT,
             relatedDebtId := none, relatedPaymentId := some p.id }])

/-- Postcondition of `getDebtPaymentHistory`: the reported percentage is
`Math.round(100 * (sum of the debt's allocations) / originalAmount * 100) / 100`
with `0` when `originalAmount` is not positive, and `isFullyPaid` is the
stored `isPaid` flag (NOT guaranteed to correspond to 100%). -/
def PercentagePost (db : DB) (debtId userId : Nat) (d : Debt) : Prop :=
  ∃ s, getDebtPaymentHistory db debtId userId = .ok s ∧
    s.percentagePaid =
      (jsRound ((if 0 < d.originalAmount then
          100 * sumAllocationAmounts (debtAllocations db debtId) / d.originalAmount
        else 0) * 100) : ℚ) / 100 ∧
    s.isFullyPaid = d.isPaid

/-- Per-user isolation outcome: each of the three mutating operations
reports `Customer not found` (before performing any write). -/
def IsolationPost (db : DB) (cid uid : Nat) (amount : ℚ) (pm : Option PaymentMethod)
    (ov : Option ℚ) (amount' : ℚ) : Prop :=
  recordPayment db { customerId := cid, amount := amount, paymentMethod := pm, userId := uid }
      = .error .customerNotFound ∧
  applyCreditToDebts db cid uid ov = .error .customerNotFound ∧
  addDebtStates db { customerId := cid, amount := amount', userId := uid }
      = .error .customerNotFound

/-- A debt at the head of the queue reached with positive remaining
funds always receives an allocation row of `min(remaining, debt.amount)`
— including amount-0 rows for zero-amount debts — in both FIFO loops. -/
def AllocationEmittedPost (pid : Nat) (r : ℚ) (d : Debt) (rest : List Debt) (db : DB) : Prop :=
  (recordPaymentLoop pid (d :: rest) r db).2.2.head? =
      some { id := db.nextAllocationId, paymentId := pid, debtId := d.id,
             amount := min r d.amount } ∧
  (applyCreditLoop pid (d :: rest) r db).2.2.head? =
      some { id := db.nextAllocationId, paymentId := pid, debtId := d.id,
             amount := min r d.amount }

/-- Customer 1 of user 7 with no credit and one unpaid debt of 50. -/
def dbPaidFlag : DB :=
  { customers := [{ id := 1, userId := 7, creditBalance := 0 }],
    debts := [{ id := 1, customerId := 1, userId := 7, amount := 50,
                originalAmount := 50, isPaid := false, createdAt := 0 }],
    payments := [], allocations := [], creditTransactions := [],
    nextDebtId := 2, nextPaymentId := 1, nextAllocationId := 1,
    nextCreditTransactionId := 1, nextCreatedAt := 1 }

/-- Customer 1 of user 7 with credit balance 25 (ledger: +25) and one
unpaid debt of 30: a state in which balance and ledger agree. -/
def dbLedgerBug : DB :=
  { customers := [{ id := 1, userId := 7, creditBalance := 25 }],
    debts := [{ id := 1, customerId := 1, userId := 7, amount := 30,
                originalAmount := 30, isPaid := false, createdAt := 0 }],
    payments := [], allocations := [],
    creditTransactions := [{ id := 1, customerId := 1, userId := 7, amount := 25,
                             type := .MANUAL_ADJUSTMENT, relatedDebtId := none,
                             relatedPaymentId := none }],
    nextDebtId := 2, nextPaymentId := 1, nextAllocationId := 1,
    nextCreditTransactionId := 2, nextCreatedAt := 1 }

/-- Customer 1 of user 7, no credit, three unpaid debts of 50, 60, 40
(oldest first). -/
def dbFifo : DB :=
  { customers := [{ id := 1, userId := 7, creditBalance := 0 }],
    debts := [{ id := 1, customerId := 1, userId := 7, amount := 50,
                originalAmount := 50, isPaid := false, createdAt := 0 },
              { id := 2, customerId := 1, userId := 7, amount := 60,
                originalAmount := 60, isPaid := false, createdAt := 1 },
              { id := 3, customerId := 1, userId := 7, amount := 40,
                originalAmount := 40, isPaid := false, createdAt := 2 }],
    payments := [], allocations := [], creditTransactions := [],
    nextDebtId := 4, nextPaymentId := 1, nextAllocationId := 1,
    nextCreditTransactionId := 1, nextCreatedAt := 3 }

/-- Customer 1 of user 7 with credit balance 20 (ledger: +20) and one
unpaid debt of 50. -/
def dbField : DB :=
  { customers := [{ id := 1, userId := 7, creditBalance := 20 }],
    debts := [{ id := 1, customerId := 1, userId := 7, amount := 50,
                originalAmount := 50, isPaid := false, createdAt := 0 }],
    payments := [], allocations := [],
    creditTransactions := [{ id := 1, customerId := 1, userId := 7, amount := 20,
                             type := .MANUAL_ADJUSTMENT, relatedDebtId := none,
                             relatedPaymentId := none }],
    nextDebtId := 2, nextPaymentId := 1, nextAllocationId := 1,
    nextCreditTransactionId := 2, nextCreatedAt := 1 }

/-- Customer 1 of user 7, no credit, an unpaid zero-amount debt (id 1,
oldest) followed by an unpaid debt of 30 (id 2). -/
def dbZeroAlloc : DB :=
  { customers := [{ id := 1, userId := 7, creditBalance := 0 }],
    debts := [{ id := 1, customerId := 1, userId := 7, amount := 0,
                originalAmount := 40, isPaid := false, createdAt := 0 },
              { id := 2, customerId := 1, userId := 7, amount := 30,
                originalAmount := 30, isPaid := false, createdAt := 1 }],
    payments := [], allocations := [], creditTransactions := [],
    nextDebtId := 3, nextPaymentId := 1, nextAllocationId := 1,
    nextCreditTransactionId := 1, nextCreatedAt := 2 }

/-- Customer 1 of user 7 with credit balance 10 (ledger: +10) and one
unpaid debt of 5. -/
def dbOverride : DB :=
  { customers := [{ id := 1, userId := 7, creditBalance := 10 }],
    debts := [{ id := 1, customerId := 1, userId := 7, amount := 5,
                originalAmount := 5, isPaid := false, createdAt := 0 }],
    payments := [], allocations := [],
    creditTransactions := [{ id := 1, customerId := 1, userId := 7, amount := 10,
                             type := .MANUAL_ADJUSTMENT, relatedDebtId := none,
                             relatedPaymentId := none }],
    nextDebtId := 2, nextPaymentId := 1, nextAllocationId := 1,
    nextCreditTransactionId := 2, nextCreatedAt := 1 }

/-- Customer 1 of user 7, no credit, one unpaid debt of 30
(originalAmount 30) and no allocation rows. -/
def dbMarkPaid : DB :=
  { customers := [{ id := 1, userId := 7, creditBalance := 0 }],
    debts := [{ id := 1, customerId := 1, userId := 7, amount := 30,
                originalAmount := 30, isPaid := false, createdAt := 0 }],
    payments := [], allocations := [], creditTransactions := [],
    nextDebtId := 2, nextPaymentId := 1, nextAllocationId := 1,
    nextCreditTransactionId := 1, nextCreatedAt := 1 }

/-- Customer 1 of user 7 with credit balance 20 (ledger: +20), no debts. -/
def dbAutoCredit20 : DB :=
  { customers := [{ id := 1, userId := 7, creditBalance := 20 }],
    debts := [], payments := [], allocations := [],
    creditTransactions := [{ id := 1, customerId := 1, userId := 7, amount := 20,
                             type := .MANUAL_ADJUSTMENT, relatedDebtId := none,
                             relatedPaymentId := none }],
    nextDebtId := 1, nextPaymentId := 1, nextAllocationId := 1,
    nextCreditTransactionId := 2, nextCreatedAt := 0 }

/-- A store containing customer 1 owned by user 7 only. -/
def dbIsolation : DB :=
  { customers := [{ id := 1, userId := 7, creditBalance := 0 }],
    debts := [{ id := 1, customerId := 1, userId := 7, amount := 50,
                originalAmount := 50, isPaid := false, createdAt := 0 }],
    payments := [], allocations := [], creditTransactions := [],
    nextDebtId := 2, nextPaymentId := 1, nextAllocationId := 1,
    nextCreditTransactionId := 1, nextCreatedAt := 1 }

/-- Helper: mapping a list by a function that does not change the value of
the search predicate commutes with the search. -/
theorem find?_map_pred {α : Type} (p : α → Bool) (g : α → α) (l : List α)
    (h : ∀ x, p (g x) = p x) : (l.map g).find? p = (l.find? p).map g := by
  induction l with
  | nil => rfl
  | cons x xs ih =>
    by_cases hpx : p x = true
    · rw [List.map_cons, List.find?_cons_of_pos _ (by rw [h]; exact hpx),
        List.find?_cons_of_pos _ hpx, Option.map_some']
    · rw [List.map_cons, List.find?_cons_of_neg _ (by rw [h]; exact hpx),
        List.find?_cons_of_neg _ hpx, ih]

/-- Helper: the customer lookup fails when no row with the given id
belongs to the given user. -/
theorem findCustomer_eq_none (db : DB) (cid uid : Nat)
    (h : ∀ c ∈ db.customers, c.id = cid → c.userId ≠ uid) :
    findCustomer db cid uid = none := by
  apply List.find?_eq_none.mpr
  intro c hc hcontra
  rw [Bool.and_eq_true, beq_iff_eq, beq_iff_eq] at hcontra
  exact h c hc hcontra.1 hcontra.2

/-- Claim C10 (confirmed): every core operation looks the customer up by
the (customerId, userId) pair, so when the customer id exists but belongs
to a different user, recordPayment, applyCreditToDebts and addDebt all
fail with the Customer-not-found error before performing any write. -/
theorem per_user_isolation (db : DB) (cid uid : Nat) (amount amount' : ℚ)
    (pm : Option PaymentMethod) (ov : Option ℚ)
    (hex : ∃ c ∈ db.customers, c.id = cid)
    (hforeign : ∀ c ∈ db.customers, c.id = cid → c.userId ≠ uid) :
    IsolationPost db cid uid amount pm ov amount' := by
  have hf : findCustomer db cid uid = none := findCustomer_eq_none db cid uid hforeign
  refine ⟨?_, ?_, ?_⟩ <;>
    simp [recordPayment, applyCreditToDebts, addDebtStates, hf]

/-- Witness for C10: customer 1 belongs to user 7; user 8's calls all
fail with Customer not found. -/
theorem per_user_isolation_witness : IsolationPost dbIsolation 1 8 50 none none 30 :=
  per_user_isolation dbIsolation 1 8 50 30 none none (by decide) (by decide)

/-- Claim C2 (confirmed): recordPayment and applyCreditToDebts run inside
prisma.$transaction, so an abort at any step restores the initial state;
and although addDebt is not transaction-wrapped, every one of its
invocations fails before performing any write — either the customer
lookup throws, or the originalAmount-less debt.create is rejected
client-side — so an abort at any point likewise leaves the store exactly
as it was before the call, with no partial allocations and no orphaned
Payment or Debt rows. -/
theorem transaction_rollback_semantics :
    (∀ (init : DB) (states : List DB) (k : Nat),
        abortState recordPaymentTx init states k = init) ∧
    (∀ (init : DB) (states : List DB) (k : Nat),
        abortState applyCreditToDebtsTx init states k = init) ∧
    (∀ (db : DB) (data : AddDebtData), ∃ e, addDebtStates db data = .error e) ∧
    (∀ (db : DB) (data : AddDebtData) (k : Nat), addDebtAbortState db data k = db) := by
  refine ⟨fun _ _ _ => rfl, fun _ _ _ => rfl, ?_, ?_⟩
  · intro db data
    cases hc : findCustomer db data.customerId data.userId with
    | none => exact ⟨.customerNotFound, by simp [addDebtStates, hc]⟩
    | some c => exact ⟨.missingOriginalAmount, by simp [addDebtStates, hc]⟩
  · intro db data k
    cases hc : findCustomer db data.customerId data.userId <;>
      simp [addDebtAbortState, addDebtStates, hc]

/-- Claim C6 (corrected, amended part): in both FIFO loops, every debt
reached while the remaining funds are positive receives an allocation
row of amount min(remaining, debt.amount) — the loops contain no
take > 0 guard, so a zero-amount unpaid debt yields a zero-amount
allocation row. -/
theorem allocation_emitted_for_every_reached_debt (pid : Nat) (r : ℚ) (d : Debt)
    (rest : List Debt) (db : DB) (hr : 0 < r) :
    AllocationEmittedPost pid r d rest db := by
  unfold AllocationEmittedPost
  constructor
  · by_cases hd : d.amount ≤ min r d.amount <;>
      simp [recordPaymentLoop, hr.not_le, hd]
  · by_cases hd : d.amount ≤ r <;>
      simp [applyCreditLoop, hr.not_le, hd]

/-- Witness for C6's amended claim at remaining 1 and a zero-amount
debt: an allocation row of amount 0 is emitted. -/
theorem allocation_emitted_witness :
    (0 : ℚ) < 1 ∧ AllocationEmittedPost 1 1
      { id := 1, customerId := 1, userId := 7, amount := 0, originalAmount := 40,
        isPaid := false, createdAt := 0 } [] dbZeroAlloc :=
  ⟨by norm_num, allocation_emitted_for_every_reached_debt 1 1 _ [] dbZeroAlloc (by norm_num)⟩

/-- Claim C1 (code_bug): after recordPayment fully covers a debt of 50
(customer has no credit, pays exactly 50), the stored row has
isPaid = true but amount still 50, not 0 — the update sets only the
isPaid flag, contradicting the invariant isPaid ⇔ amount == 0 and the
repository's own documentation (docs state amount = $0 after full
payment). -/
theorem recordPayment_marks_paid_without_zeroing :
    ((recordPayment dbPaidFlag { customerId := 1, amount := 50, paymentMethod := none, userId := 7 }).toOption.bind
        (fun r => findDebtRow r.1 1)).map (fun d => (d.isPaid, d.amount, d.originalAmount))
      = some (true, 50, 50) ∧ (50 : ℚ) ≠ 0 := by
  constructor
  · norm_num [dbPaidFlag, recordPayment, findCustomer, unpaidDebtsFifo, sortByCreatedAt,
      insertByCreatedAt, sumAmounts, recordPaymentLoop, updateDebtRow, updateCustomerRow,
      createCreditTransaction, findDebtRow, List.find?, List.filter, min_def, max_def,
      Except.toOption]
  · norm_num

/-- Claim C3 (code_bug): starting from a state where the balance equals
the ledger sum (credit 25, one debt of 30, ledger +25), recordPayment of
10 leaves creditBalance 5 but writes an APPLIED_TO_DEBT credit
transaction of -min(credit, totalDebt) = -25 instead of the -20 actually
consumed, so the ledger sums to 0 ≠ 5. -/
theorem recordPayment_ledger_mismatch :
    (findCustomer dbLedgerBug 1 7).map (fun c => c.creditBalance)
        = some (creditTransactionSum dbLedgerBug 1) ∧
    ((recordPayment dbLedgerBug { customerId := 1, amount := 10, paymentMethod := none, userId := 7 }).toOption.map
        (fun r => ((findCustomer r.1 1 7).map (fun c => c.creditBalance),
                   creditTransactionSum r.1 1)))
      = some (some 5, 0) ∧ (5 : ℚ) ≠ 0 := by
  refine ⟨?_, ?_, by norm_num⟩ <;>
    norm_num [dbLedgerBug, recordPayment, findCustomer, unpaidDebtsFifo, sortByCreatedAt,
      insertByCreatedAt, sumAmounts, recordPaymentLoop, updateDebtRow, updateCustomerRow,
      createCreditTransaction, creditTransactionSum, List.find?, List.filter, min_def,
      max_def, Except.toOption]

/-- Counterexample to C5 as stated: with prior credit 20, one debt of 50
and a payment of 10, the persisted Payment.appliedToDebt is 10 (the
payment's own share), while availableFunds - remaining = (10 + 20) - 0
= 30. -/
theorem payment_appliedToDebt_excludes_credit :
    ((recordPayment dbField { customerId := 1, amount := 10, paymentMethod := none, userId := 7 }).toOption.map
        (fun r => (r.2.1.appliedToDebt, (findCustomer r.1 1 7).map (fun c => c.creditBalance))))
      = some (10, some 0) ∧ (10 : ℚ) ≠ 10 + 20 - 0 := by
  constructor
  · norm_num [dbField, recordPayment, findCustomer, unpaidDebtsFifo, sortByCreatedAt,
      insertByCreatedAt, sumAmounts, recordPaymentLoop, updateDebtRow, updateCustomerRow,
      createCreditTransaction, List.find?, List.filter, min_def, max_def, Except.toOption]
  · norm_num

/-- Counterexample to C6 as stated: debt 1 is unpaid with amount 0, yet
recordPayment of 10 creates an allocation row (debtId 1, amount 0) for
it before allocating 10 to debt 2. -/
theorem zero_amount_debt_gets_allocation_row :
    (findDebtRow dbZeroAlloc 1).map (fun d => (d.isPaid, d.amount)) = some (false, 0) ∧
    ((recordPayment dbZeroAlloc { customerId := 1, amount := 10, paymentMethod := none, userId := 7 }).toOption.map
        (fun r => r.1.allocations.map (fun a => (a.debtId, a.amount))))
      = some [(1, 0), (2, 10)] := by
  constructor
  · norm_num [dbZeroAlloc, findDebtRow, List.find?]
  · norm_num [dbZeroAlloc, recordPayment, findCustomer, unpaidDebtsFifo, sortByCreatedAt,
      insertByCreatedAt, sumAmounts, recordPaymentLoop, updateDebtRow, updateCustomerRow,
      createCreditTransaction, List.find?, List.filter, min_def, max_def, Except.toOption]

/-- Counterexample to C7 as stated: with creditBalance 10, one debt of 5
and an explicit override of 0, the operation applies 5 — the truthiness
test treats the 0 override as absent — whereas the claim's formula
min(0, 10, 5) gives 0. -/
theorem zero_override_honored_as_absent :
    ((applyCreditToDebts dbOverride 1 7 (some 0)).toOption.map
        (fun r => r.2.2.2.creditApplied)) = some 5 ∧ (5 : ℚ) ≠ min 0 (min 10 5) := by
  constructor
  · norm_num [dbOverride, applyCreditToDebts, findCustomer, unpaidDebtsFifo, sortByCreatedAt,
      insertByCreatedAt, sumAmounts, applyCreditLoop, updateDebtRow, updateCustomerRow,
      createCreditTransaction, List.find?, List.filter, min_def, max_def, Except.toOption]
  · norm_num

/-- Counterexample to C8 as stated: DebtService.markDebtAsPaid sets a
debt's isPaid flag without creating any PaymentAllocation row, so on a
debt of originalAmount 30 with no allocations, getDebtPaymentHistory
afterwards reports isFullyPaid = true with percentagePaid 0, not 100. -/
theorem paid_debt_reports_zero_percent :
    ((markDebtAsPaid dbMarkPaid 1 7).toOption.bind
        (fun db1 => (getDebtPaymentHistory db1 1 7).toOption)).map
        (fun s => (s.isFullyPaid, s.percentagePaid, s.originalAmount))
      = some (true, 0, 30) ∧
    debtAllocations dbMarkPaid 1 = [] ∧ (0 : ℚ) ≠ 100 := by
  refine ⟨?_, rfl, by norm_num⟩
  norm_num [markDebtAsPaid, dbMarkPaid, getDebtPaymentHistory, findDebtByIdUser,
    debtAllocations, sumAllocationAmounts, jsRound, List.find?, List.filter,
    Except.toOption]

/-- Helper: looking up the updated id after a row update returns the
updated row. -/
theorem updateDebtRow_find_self (l : List Debt) (i : Nat) (f : Debt → Debt)
    (hpres : ∀ d, (f d).id = d.id) :
    (updateDebtRow l i f).find? (fun d => d.id == i) =
      (l.find? (fun d => d.id == i)).map f := by
  unfold updateDebtRow
  have hinv : ∀ x : Debt, ((if x.id == i then f x else x).id == i) = (x.id == i) := by
    intro x
    by_cases hx : x.id == i <;> simp [hx, hpres]
  rw [find?_map_pred _ _ _ hinv]
  cases hfd : l.find? (fun d => d.id == i) with
  | none => rfl
  | some x =>
    have hx : x.id = i := by simpa using List.find?_some hfd
    simp [hx]

/-- Helper: a row update keyed on a different id does not change a
lookup. -/
theorem updateDebtRow_find_other (l : List Debt) (i j : Nat) (f : Debt → Debt)
    (hpres : ∀ d, (f d).id = d.id) (hne : j ≠ i) :
    (updateDebtRow l j f).find? (fun d => d.id == i) = l.find? (fun d => d.id == i) := by
  unfold updateDebtRow
  have hinv : ∀ x : Debt, ((if x.id == j then f x else x).id == i) = (x.id == i) := by
    intro x
    by_cases hx : x.id == j <;> simp [hx, hpres]
  rw [find?_map_pred _ _ _ hinv]
  cases hfd : l.find? (fun d => d.id == i) with
  | none => rfl
  | some x =>
    have hx : x.id = i := by simpa using List.find?_some hfd
    have hxj : (x.id == j) = false := by
      simp only [hx, beq_eq_false_iff_ne]
      exact Ne.symm hne
    simp only [Option.map_some']
    rw [if_neg]
    simp [hxj]

/-- Helper: the credit-application FIFO loop writes no credit
transactions. -/
theorem applyCreditLoop_ct (pid : Nat) (l : List Debt) (r : ℚ) (db : DB) :
    (applyCreditLoop pid l r db).1.creditTransactions = db.creditTransactions := by
  induction l generalizing r db with
  | nil => rfl
  | cons d rest ih =>
    by_cases h0 : r ≤ 0
    · simp [applyCreditLoop, h0]
    · by_cases hd : d.amount ≤ r <;> simp [applyCreditLoop, h0, hd, ih]

/-- Helper: the credit-application FIFO loop does not advance the
credit-transaction id counter. -/
theorem applyCreditLoop_ctId (pid : Nat) (l : List Debt) (r : ℚ) (db : DB) :
    (applyCreditLoop pid l r db).1.nextCreditTransactionId = db.nextCreditTransactionId := by
  induction l generalizing r db with
  | nil => rfl
  | cons d rest ih =>
    by_cases h0 : r ≤ 0
    · simp [applyCreditLoop, h0]
    · by_cases hd : d.amount ≤ r <;> simp [applyCreditLoop, h0, hd, ih]

/-- Claim C5 (corrected, amended part): for every recordPayment call on
an existing customer, the persisted Payment.appliedToDebt equals
min(amount + credit, totalDebt) - credit, i.e.
(availableFunds - remaining) MINUS the prior credit balance — only the
portion attributed to the new payment itself. -/
theorem payment_appliedToDebt_field_formula (db : DB) (data : RecordPaymentData) (c : Customer)
    (hfind : findCustomer db data.customerId data.userId = some c) :
    AppliedToDebtPost db data c := by
  unfold AppliedToDebtPost
  simp only [recordPayment, hfind]
  refine ⟨_, _, _, rfl, ?_, ?_⟩
  · rfl
  · rcases le_total (data.amount + c.creditBalance) (totalUnpaidDebt db data.customerId) with h | h
    · rw [min_eq_left h, max_eq_left (sub_nonpos.mpr h), sub_zero]
    · rw [min_eq_right h, max_eq_right (sub_nonneg.mpr h)]
      ring

/-- Witness for C5's amended claim at the concrete store of the
counterexample. -/
theorem payment_appliedToDebt_field_formula_witness :
    AppliedToDebtPost dbField { customerId := 1, amount := 10, paymentMethod := none, userId := 7 }
      { id := 1, userId := 7, creditBalance := 20 } :=
  payment_appliedToDebt_field_formula dbField _ _ (by decide)

/-- Claim C8 (corrected, amended part): getDebtPaymentHistory reports
percentagePaid = round2(100 * sum(allocations) / originalAmount) with
0 when originalAmount is not positive, and isFullyPaid is the stored
isPaid flag (not guaranteed to coincide with a 100% figure). -/
theorem percentage_formula (db : DB) (debtId userId : Nat) (d : Debt)
    (hfind : findDebtByIdUser db debtId userId = some d) :
    PercentagePost db debtId userId d := by
  unfold PercentagePost
  simp only [getDebtPaymentHistory, hfind]
  refine ⟨_, rfl, ?_, rfl⟩
  have hsw : (if 0 < d.originalAmount then
        sumAllocationAmounts (debtAllocations db debtId) / d.originalAmount * 100 else 0)
      = (if 0 < d.originalAmount then
        100 * sumAllocationAmounts (debtAllocations db debtId) / d.originalAmount else 0) := by
    split
    · ring
    · rfl
  rw [hsw]

/-- Witness for C8's amended claim at a concrete debt. -/
theorem percentage_formula_witness :
    PercentagePost dbFifo 1 7
      { id := 1, customerId := 1, userId := 7, amount := 50, originalAmount := 50,
        isPaid := false, createdAt := 0 } :=
  percentage_formula dbFifo 1 7 _ (by decide)

/-- Claim C7 (corrected, amended part): with the customer found,
applyCreditToDebts fails with NoCredit exactly when creditBalance ≤ 0
(checked first), otherwise fails with NoDebt exactly when there are no
unpaid debts, and otherwise applies creditToApplySpec — the override is
honoured only when non-null and nonzero. -/
theorem applyCreditToDebts_contract (db : DB) (cid uid : Nat) (ov : Option ℚ) (c : Customer)
    (hfind : findCustomer db cid uid = some c) :
    ApplyCreditContract db cid uid ov c := by
  unfold ApplyCreditContract
  refine ⟨?_, ?_, ?_⟩
  · intro hle
    simp only [applyCreditToDebts, hfind]
    rw [if_pos hle]
  · intro hpos hempty
    simp only [applyCreditToDebts, hfind]
    rw [if_neg (not_le.mpr hpos), hempty]
    rfl
  · intro hpos hne
    simp only [applyCreditToDebts, hfind]
    rw [if_neg (not_le.mpr hpos), if_neg (by simp [List.length_eq_zero, hne])]
    refine ⟨_, _, _, _, rfl, rfl, rfl, rfl, rfl, rfl, ?_⟩
    simp only [createCreditTransaction, applyCreditLoop_ct, applyCreditLoop_ctId]

/-- Witness for C7's amended claim with a truthy override of 3. -/
theorem applyCreditToDebts_contract_witness :
    ApplyCreditContract dbOverride 1 7 (some 3) { id := 1, userId := 7, creditBalance := 10 } :=
  applyCreditToDebts_contract dbOverride 1 7 (some 3) _ (by decide)

/-- Claim C9 (code_bug): addDebt on an existing customer with positive
credit (balance 20, amount 30, the claim's own instance) performs none of
the documented auto-credit behavior: its debt.create omits the
schema-required originalAmount, so the Prisma client rejects the call
with a validation error before any write — no debt row is created, no
credit is applied, no credit transaction is emitted, and the store is
untouched at every abort point. -/
theorem addDebt_rejected_missing_originalAmount :
    addDebt dbAutoCredit20 { customerId := 1, amount := 30, userId := 7 }
        = .error .missingOriginalAmount ∧
    (∀ k, addDebtAbortState dbAutoCredit20 { customerId := 1, amount := 30, userId := 7 } k
        = dbAutoCredit20) := by
  constructor
  · norm_num [addDebt, addDebtStates, findCustomer, dbAutoCredit20, List.find?]
  · intro k
    norm_num [addDebtAbortState, addDebtStates, findCustomer, dbAutoCredit20, List.find?]

/-- Claim C4 (confirmed): for any customer with no credit and unpaid
FIFO queue exactly [d1, d2, d3] with amounts 50, 60, 40, recordPayment
of 100 marks d1 paid, reduces d2 to 10, leaves d3 (and every other
debt) untouched, and creates exactly two allocation rows of 50 for d1
and 50 for d2. -/
theorem recordPayment_fifo_correctness (db : DB) (cid uid : Nat) (pm : Option PaymentMethod)
    (c : Customer) (d1 d2 d3 : Debt)
    (hfind : findCustomer db cid uid = some c)
    (hcb : c.creditBalance = 0)
    (hfifo : unpaidDebtsFifo db cid = [d1, d2, d3])
    (h1 : d1.amount = 50) (h2 : d2.amount = 60) (h3 : d3.amount = 40)
    (h12 : d1.id ≠ d2.id) (h13 : d1.id ≠ d3.id) (h23 : d2.id ≠ d3.id) :
    FifoPost db cid uid pm d1 d2 d3 := by
  unfold FifoPost
  simp only [recordPayment, hfind, hfifo, hcb, sumAmounts, List.foldl, h1, h2, h3]
  norm_num [recordPaymentLoop, h1, h2, h3]
  refine ⟨_, _, _, ⟨rfl, rfl, rfl⟩, by simp, rfl, ?_, ?_, ?_⟩
  · simp only [findDebtRow]
    rw [updateDebtRow_find_other _ d1.id d2.id (fun d => { d with amount := 10 }) (fun d => rfl) (Ne.symm h12),
      updateDebtRow_find_self _ d1.id (fun d => { d with isPaid := true }) (fun d => rfl)]
  · simp only [findDebtRow]
    rw [updateDebtRow_find_self _ d2.id (fun d => { d with amount := 10 }) (fun d => rfl),
      updateDebtRow_find_other _ d2.id d1.id (fun d => { d with isPaid := true }) (fun d => rfl) h12]
  · simp only [findDebtRow]
    rw [updateDebtRow_find_other _ d3.id d2.id (fun d => { d with amount := 10 }) (fun d => rfl) h23,
      updateDebtRow_find_other _ d3.id d1.id (fun d => { d with isPaid := true }) (fun d => rfl) h13]

/-- Witness for C4 at a concrete three-debt store. -/
theorem recordPayment_fifo_correctness_witness :
    FifoPost dbFifo 1 7 none
      { id := 1, customerId := 1, userId := 7, amount := 50, originalAmount := 50,
        isPaid := false, createdAt := 0 }
      { id := 2, customerId := 1, userId := 7, amount := 60, originalAmount := 60,
        isPaid := false, createdAt := 1 }
      { id := 3, customerId := 1, userId := 7, amount := 40, originalAmount := 40,
        isPaid := false, createdAt := 2 } :=
  recordPayment_fifo_correctness dbFifo 1 7 none
    { id := 1, userId := 7, creditBalance := 0 } _ _ _
    (by decide) (by decide) (by decide) (by decide) (by decide) (by decide)
    (by decide) (by decide) (by decide)

end Shop
